import Mathlib

/-!
Verification of `generate_icons.py` from the KstApp repository.

The module is shallowly embedded.  Python name resolution is modelled
explicitly, because the only `import` statement of the module is
`import os` (line 7), while the body of `create_icon` refers to the
names `Image`, `ImageDraw` and `ImageFont` of the Pillow library.
Fallible Python code lives in the `Except` monad; the filesystem and
the console are explicit state threaded through `main`.
-/

namespace KstApp

/-- Exceptions the embedded code can raise: `NameError` for an
unresolvable name, `OSError` for a failing font-file load. -/
inductive PyErr
  | nameError : String → PyErr
  | osError : PyErr
deriving DecidableEq

/-- Names bound at module level of `generate_icons.py`: `import os`
(line 7), `def create_icon` (line 9), `def main` (line 102).  The names
`Image`, `ImageDraw` and `ImageFont` are never imported. -/
def moduleGlobals : List String := ["os", "create_icon", "main"]

/-- The Python builtins that the code of the module refers to. -/
def builtinNames : List String := ["int", "print"]

/-- Python resolution of a global name used inside a function body:
`NameError` unless the name is a module global or a builtin. -/
def resolveName (n : String) : Except PyErr Unit :=
  if (moduleGlobals ++ builtinNames).contains n then Except.ok ()
  else Except.error (PyErr.nameError n)

/-- An RGBA colour, as a 4-tuple of channel values. -/
abbrev RGBA := Nat × Nat × Nat × Nat

/-- One PIL drawing call, recorded abstractly: `draw.rounded_rectangle`,
`draw.polygon`, or `draw.text`. -/
inductive DrawCmd
  | roundedRect (box : Int × Int × Int × Int) (radius : Int) (fill : RGBA)
  | polygon (points : List (Int × Int)) (fill : RGBA)
  | text (pos : Int × Int) (s : String) (fill : RGBA)
deriving DecidableEq

/-- The in-memory image produced by `Image.new` and the drawing calls:
canvas dimensions, initial fill, and the trace of drawing commands. -/
structure Icon where
  width : Nat
  height : Nat
  background : RGBA
  cmds : List DrawCmd
deriving DecidableEq

/-- A PIL font handle: a loaded truetype font or the builtin default. -/
inductive Font
  | truetypeFont (path : String) (fsize : Int)
  | defaultFont
deriving DecidableEq

/-- Text bounding box as returned by `draw.textbbox` anchored at the
origin. -/
structure BBox where
  left : Int
  top : Int
  right : Int
  bottom : Int

/-- The environment-dependent part of font behaviour: whether each
truetype file loads, and the metrics a font assigns to a string. -/
structure FontEnv where
  loads : String → Bool
  bboxOf : Font → String → BBox

/-- Models `int(c * scale)` with `scale = size / 1024.0` (line 16).
Since 1024 is a power of two, the float `c * (size / 1024.0)` is the
exact rational `c * size / 1024` for the magnitudes involved, and
`int` truncates towards zero, which on nonnegative values is floor, so
the value is natural-number division of `c * size` by 1024. -/
def iscale (c : Nat) (size : Nat) : Int := ((c * size) / 1024 : Nat)

/-- Models `ImageFont.truetype(path, fsize)` (lines 83 and 86): the
name `ImageFont` must resolve first; the load itself raises `OSError`
when the environment cannot provide the font file. -/
def truetype (env : FontEnv) (path : String) (fsize : Int) : Except PyErr Font := do
  let _ ← resolveName "ImageFont"
  if env.loads path then Except.ok (Font.truetypeFont path fsize)
  else Except.error PyErr.osError

/-- Models `ImageFont.load_default()` (line 88), which in Pillow never
fails - but the name `ImageFont` must resolve first. -/
def load_default : Except PyErr Font := do
  let _ ← resolveName "ImageFont"
  Except.ok Font.defaultFont

/-- Lines 80-88: the font-selection block.  Both `except:` clauses of
the source are bare, so they catch every exception, including a
`NameError` raised while resolving `ImageFont`; the final
`load_default` call sits inside an except handler with no surrounding
`try`, so an exception raised there propagates out of `create_icon`. -/
def selectFont (env : FontEnv) (font_size : Int) : Except PyErr Font :=
  match truetype env "/System/Library/Fonts/Arial.ttf" font_size with
  | Except.ok f => Except.ok f
  | Except.error _ =>
    match truetype env "/System/Library/Fonts/Helvetica.ttc" font_size with
    | Except.ok f => Except.ok f
    | Except.error _ => load_default

/-- Lines 9-100: `create_icon(size)`.  Each global name used by the
body is resolved as Python would resolve it, in evaluation order; the
drawing calls are recorded as `DrawCmd` values on the returned `Icon`.
Integer divisions written `Int.fdiv` model the Python floor-division
operator of lines 95-96. -/
def create_icon (env : FontEnv) (size : Nat) : Except PyErr Icon := do
  -- line 12: img = Image.new("RGBA", (size, size), (0, 0, 0, 255))
  let _ ← resolveName "Image"
  -- line 13: draw = ImageDraw.Draw(img)
  let _ ← resolveName "ImageDraw"
  -- lines 19-20: background rounded rectangle over the full canvas
  let corner_radius := iscale 180 size
  let background := DrawCmd.roundedRect (0, 0, (size : Int), (size : Int)) corner_radius (0, 0, 0, 255)
  -- line 23: green = (0, 200, 81, 255)
  let green : RGBA := (0, 200, 81, 255)
  -- lines 26-33: first speech bubble
  let bubble1_x := iscale 200 size
  let bubble1_y := iscale 300 size
  let bubble1_w := iscale 280 size
  let bubble1_h := iscale 200 size
  let bubble1_r := iscale 20 size
  let bubble1 := DrawCmd.roundedRect (bubble1_x, bubble1_y, bubble1_x + bubble1_w, bubble1_y + bubble1_h) bubble1_r green
  -- lines 36-41: first tail polygon
  let tail1 := DrawCmd.polygon
    [(bubble1_x, bubble1_y + iscale 100 size),
     (bubble1_x - iscale 50 size, bubble1_y + iscale 150 size),
     (bubble1_x, bubble1_y + iscale 200 size)] green
  -- lines 44-51: second speech bubble
  let bubble2_x := iscale 544 size
  let bubble2_y := iscale 200 size
  let bubble2_w := iscale 280 size
  let bubble2_h := iscale 200 size
  let bubble2_r := iscale 20 size
  let bubble2 := DrawCmd.roundedRect (bubble2_x, bubble2_y, bubble2_x + bubble2_w, bubble2_y + bubble2_h) bubble2_r green
  -- lines 54-59: second tail polygon
  let tail2 := DrawCmd.polygon
    [(bubble2_x + bubble2_w, bubble2_y + iscale 100 size),
     (bubble2_x + bubble2_w + iscale 50 size, bubble2_y + iscale 50 size),
     (bubble2_x + bubble2_w, bubble2_y)] green
  -- lines 62-69: third speech bubble
  let bubble3_x := iscale 150 size
  let bubble3_y := iscale 600 size
  let bubble3_w := iscale 200 size
  let bubble3_h := iscale 150 size
  let bubble3_r := iscale 15 size
  let bubble3 := DrawCmd.roundedRect (bubble3_x, bubble3_y, bubble3_x + bubble3_w, bubble3_y + bubble3_h) bubble3_r green
  -- lines 72-77: third tail polygon
  let tail3 := DrawCmd.polygon
    [(bubble3_x, bubble3_y + iscale 75 size),
     (bubble3_x - iscale 50 size, bubble3_y + iscale 125 size),
     (bubble3_x, bubble3_y + iscale 175 size)] green
  -- lines 80-88: font selection
  let font_size := iscale 180 size
  let font ← selectFont env font_size
  -- lines 90-96: measure and position the label
  let text := "KST"
  let text_bbox := env.bboxOf font text
  let text_width := text_bbox.right - text_bbox.left
  let text_height := text_bbox.bottom - text_bbox.top
  let text_x := Int.fdiv ((size : Int) - text_width) 2
  let text_y := Int.fdiv ((size : Int) - text_height) 2 + iscale 50 size
  -- line 98: draw the label in opaque white
  let label := DrawCmd.text (text_x, text_y) text (255, 255, 255, 255)
  Except.ok { width := size, height := size, background := (0, 0, 0, 255),
              cmds := [background, bubble1, tail1, bubble2, tail2, bubble3, tail3, label] }

/-- The part of the filesystem the program touches: the set of
directories that exist and the files with their contents. -/
structure FS where
  dirs : List String
  files : List (String × Icon)
deriving DecidableEq

/-- Models `os.path.join` on the arguments the program passes. -/
def os_path_join (a b : String) : String := a ++ "/" ++ b

/-- Models `os.makedirs(d, exist_ok=True)` (line 117). -/
def os_makedirs (fs : FS) (d : String) : FS :=
  if fs.dirs.contains d then fs else { fs with dirs := d :: fs.dirs }

/-- Models `img.save(path, "PNG")` (line 122): writes the file at
`path`, overwriting any previous file at that path. -/
def save (fs : FS) (path : String) (img : Icon) : FS :=
  { fs with files := (path, img) :: fs.files.filter (fun p => p.1 != path) }

/-- Lines 104-114: the fixed table of nine (size, filename) pairs. -/
def sizes : List (Nat × String) :=
  [(40, "icon-20@2x.png"),
   (60, "icon-20@3x.png"),
   (58, "icon-29@2x.png"),
   (87, "icon-29@3x.png"),
   (80, "icon-40@2x.png"),
   (120, "icon-40@3x.png"),
   (120, "icon-60@2x.png"),
   (180, "icon-60@3x.png"),
   (1024, "icon-1024.png")]

/-- Line 116: the output directory. -/
def output_dir : String := "Assets.xcassets/AppIcon.appiconset"

/-- The observable result of a run of `main`: the final filesystem,
the console lines in order, and the exception that terminated the run
early, if any. -/
structure RunResult where
  fs : FS
  printed : List String
  err : Option PyErr
deriving DecidableEq

/-- Lines 119-123: the batch loop over the remaining entries.  Python
propagates an exception raised by `create_icon` out of the loop, so an
error ends the run with the entries processed so far. -/
def runEntries (env : FontEnv) : List (Nat × String) → FS → List String → RunResult
  | [], fs, log => { fs := fs, printed := log.reverse, err := none }
  | (size, filename) :: rest, fs, log =>
    let log := ("Generating " ++ filename ++ " (" ++ toString size ++ "x" ++ toString size ++ ")...") :: log
    match create_icon env size with
    | Except.error e => { fs := fs, printed := log.reverse, err := some e }
    | Except.ok img =>
      let fs := save fs (os_path_join output_dir filename) img
      let log := ("Saved " ++ filename) :: log
      runEntries env rest fs log

/-- Lines 102-123: `main()` creates the output directory, then runs
the batch loop over the nine-entry table. -/
def main (env : FontEnv) (fs : FS) : RunResult :=
  runEntries env sizes (os_makedirs fs output_dir) []

/-- A concrete font environment: no truetype font loads, and every
string measures to the empty box. -/
def env0 : FontEnv := { loads := fun _ => false, bboxOf := fun _ _ => ⟨0, 0, 0, 0⟩ }

/-- The empty filesystem. -/
def fs0 : FS := { dirs := [], files := [] }

/-- Helper: a run of `main` creates the output directory, prints the
progress line of the first entry, and terminates with the `NameError`
raised on the unresolvable name `Image`. -/
theorem main_eq (env : FontEnv) (fs : FS) :
    main env fs = { fs := os_makedirs fs output_dir,
                    printed := ["Generating icon-20@2x.png (40x40)..."],
                    err := some (PyErr.nameError "Image") } := rfl

/-- C1: for every pixel size, a call to `create_icon` raises a
`NameError` on the name `Image`, which is never imported, and
consequently `main` writes no file to any starting filesystem. -/
theorem c1_create_icon_raises_nameError_and_main_writes_nothing :
    (∀ (env : FontEnv) (size : Nat),
        create_icon env size = Except.error (PyErr.nameError "Image")) ∧
    (∀ (env : FontEnv) (fs : FS), (main env fs).fs.files = fs.files) := by
  refine ⟨fun env size => rfl, fun env fs => ?_⟩
  show (os_makedirs fs output_dir).files = fs.files
  unfold os_makedirs
  split <;> rfl

/-- C2: evaluated at the positive pixel size 40, `create_icon` does
not return a square opaque image; it raises `NameError` instead. -/
theorem c2_create_icon_40_raises_not_returns :
    create_icon env0 40 = Except.error (PyErr.nameError "Image") := rfl

/-- C3: a run of `main` from the empty filesystem creates the output
directory but writes none of the nine PNG files: the batch dies with a
`NameError` on its first entry. -/
theorem c3_main_writes_zero_of_nine_files :
    (main env0 fs0).fs.files = [] ∧
    (main env0 fs0).fs.dirs = [output_dir] ∧
    (main env0 fs0).err = some (PyErr.nameError "Image") :=
  ⟨rfl, rfl, rfl⟩

/-- C4: in every font environment, the font-selection block of lines
80-88 raises a `NameError` on `ImageFont`: the final
`ImageFont.load_default()` fallback itself fails because `ImageFont`
is never imported, so font resolution does make the render fail. -/
theorem c4_font_fallback_chain_raises :
    ∀ (env : FontEnv) (font_size : Int),
      selectFont env font_size = Except.error (PyErr.nameError "ImageFont") :=
  fun _ _ => rfl

/-- C5: at size 1024 (and every other size) no label text is ever
drawn: `create_icon` raises `NameError` before any drawing call, so no
icon exists whose label placement could be measured. -/
theorem c5_no_label_is_drawn :
    create_icon env0 1024 = Except.error (PyErr.nameError "Image") ∧
    ∀ icon : Icon, create_icon env0 1024 ≠ Except.ok icon := by
  refine ⟨rfl, fun icon h => ?_⟩
  rw [show create_icon env0 1024 = Except.error (PyErr.nameError "Image") from rfl] at h
  exact Except.noConfusion h

/-- C6: at size 120 in the fixed environment `env0`, a render call
produces no image at all - the call raises `NameError` - so no two
calls produce pixel-identical output, there being no output. -/
theorem c6_no_output_is_produced :
    ∀ icon : Icon, create_icon env0 120 ≠ Except.ok icon := by
  intro icon h
  rw [show create_icon env0 120 = Except.error (PyErr.nameError "Image") from rfl] at h
  exact Except.noConfusion h

/-- C7: for the size pair (512, 1024) neither render exists - both
calls raise `NameError` - so the linear measurements the scaling
invariant relates are never produced. -/
theorem c7_no_renders_to_compare :
    create_icon env0 512 = Except.error (PyErr.nameError "Image") ∧
    create_icon env0 1024 = Except.error (PyErr.nameError "Image") :=
  ⟨rfl, rfl⟩

/-- C8 counterexample: in a run from the empty filesystem, processing
of the first entry fails with `NameError`, yet the second entry (and
every later one) is not processed at all: the console log shows
exactly one progress line, for the first entry only. -/
theorem c8_first_entry_failure_stops_batch :
    (main env0 fs0).err = some (PyErr.nameError "Image") ∧
    (main env0 fs0).printed = ["Generating icon-20@2x.png (40x40)..."] :=
  ⟨rfl, rfl⟩

/-- C8 amended: the batch is sequential and fail-fast: a failure while
processing an entry terminates the whole run, so no later entry is
processed; since the first entry always fails with `NameError`, every
run processes exactly the first entry and then stops. -/
theorem c8_amended_fail_fast :
    ∀ (env : FontEnv) (fs : FS),
      (main env fs).printed = ["Generating icon-20@2x.png (40x40)..."] ∧
      (main env fs).err = some (PyErr.nameError "Image") :=
  fun _ _ => ⟨rfl, rfl⟩

/-- C9: after two consecutive runs of `main` starting from a missing
output directory, the directory exists but the number of files in the
filesystem is zero, not nine. -/
theorem c9_two_runs_leave_zero_files :
    (main env0 (main env0 fs0).fs).fs.files.length = 0 ∧
    (main env0 fs0).fs.dirs = [output_dir] :=
  ⟨rfl, rfl⟩

/-- C10: in a single batch run neither of the two 120-pixel entries is
written: the run dies at the first entry, so neither
`icon-40@3x.png` nor `icon-60@2x.png` receives any image content. -/
theorem c10_neither_120px_file_is_written :
    (main env0 fs0).fs.files.lookup (os_path_join output_dir "icon-40@3x.png") = none ∧
    (main env0 fs0).fs.files.lookup (os_path_join output_dir "icon-60@2x.png") = none :=
  ⟨rfl, rfl⟩

end KstApp
